import Mathlib

/-!
Shallow embedding of the PyParadise spectral container and template-fitting
routines (`PyParadise/data.py` and `PyParadise/spectrum1d.py`).

Modelling conventions:
* machine floats are rationals; numpy arrays are lists;
* fallible Python code is `Except PyError`;
* in-place mutation of `self` (mask or error updates) is explicit state
  passing: such operations return the updated `Spectrum1D` beside their
  result;
* the spline and linear interpolation kernels of scipy, the Gaussian filter
  of `scipy.ndimage` and the kinematic broadening of a whole library are
  external numeric primitives: the embedding takes them as function
  arguments, and theorems state the contracts they are assumed to satisfy
  as hypotheses;
* the reported Gelman-Rubin diagnostic involves a square root; the
  embedding computes the radicand (the square of the diagnostic), which
  determines the diagnostic on nonnegative inputs.
-/

deriving instance DecidableEq for Except

namespace PyParadise

/-- Python exception kinds that the embedded code paths can raise. -/
inductive PyError where
  | valueError
  | typeError
  | indexError
  | attributeError
deriving DecidableEq, Repr

/-- The `Spectrum1D` container of `spectrum1d.py` (a `Data` holding a 1D
spectrum): wavelength grid, data, optional error, optional boolean mask
(`true` = excluded point), optional normalization, and the optional
`_vel_sampling` attribute set by `setVelSampling`. -/
structure Spectrum1D where
  wave : List ℚ
  data : List ℚ
  error : Option (List ℚ)
  mask : Option (List Bool)
  normalization : Option (List ℚ)
  velSampling : Option ℚ
deriving DecidableEq, Repr

/-- `Data.correctError` (data.py lines 132-138): where `error <= 0`, the
mask (when present) is set to `True` and the error is replaced by
`replace_error`; everything else is untouched.  The mutation of `self` is
modelled by returning the updated spectrum. -/
def correctError (s : Spectrum1D) (replaceError : ℚ) : Spectrum1D :=
  match s.error with
  | none => s
  | some e =>
    let select := e.map (fun x => decide (x ≤ 0))
    let newMask := match s.mask with
      | none => none
      | some m => some (List.zipWith (fun mi si => mi || si) m select)
    { s with
      error := some (List.zipWith (fun x si => if si then replaceError else x) e select),
      mask := newMask }

/-- `Data.unnormalizedSpec` (data.py lines 266-282): returns a new object
with `data * normalization` and `error * |normalization|`, and no
normalization.  Multiplying by a `None` normalization raises a TypeError
in numpy. -/
def unnormalizedSpec (s : Spectrum1D) : Except PyError Spectrum1D :=
  match s.normalization with
  | none => Except.error PyError.typeError
  | some nrm =>
    Except.ok { s with
      data := List.zipWith (fun d n => d * n) s.data nrm,
      error := s.error.map (fun e => List.zipWith (fun x n => x * |n|) e nrm),
      normalization := none }

/-- `Data.applyNormalization` (data.py lines 284-290): only when the stored
normalization is `None`, divides `data` by `normalization` and `error` by
`|normalization|` in place (modelled by returning the updated spectrum;
the stored normalization field stays `None`). -/
def applyNormalization (s : Spectrum1D) (normalization : List ℚ) : Spectrum1D :=
  match s.normalization with
  | none =>
    { s with
      data := List.zipWith (fun d n => d / n) s.data normalization,
      error := s.error.map (fun e => List.zipWith (fun x n => x / |n|) e normalization) }
  | some _ => s

/-- `Spectrum1D.hasData` (spectrum1d.py lines 59-86): when `start_wave`
(resp. `end_wave`) is supplied, `self._mask` is overwritten in place with
its union with `wave < start_wave` (resp. `wave > end_wave`); the
availability test `sum(data) != 0 and sum(mask) != len(data)` then runs on
the updated mask.  A `None` mask would make `numpy.logical_or` and the
final `numpy.sum(self._mask)` misbehave; that path raises in the model. -/
def hasData (s : Spectrum1D) (startWave endWave : Option ℚ) :
    Except PyError (Bool × Spectrum1D) :=
  match s.mask with
  | none => Except.error PyError.typeError
  | some m0 =>
    let m1 := match startWave with
      | none => m0
      | some w => List.zipWith (fun mi b => mi || b) m0 (s.wave.map (fun x => decide (x < w)))
    let m2 := match endWave with
      | none => m1
      | some w => List.zipWith (fun mi b => mi || b) m1 (s.wave.map (fun x => decide (w < x)))
    Except.ok (decide (s.data.sum ≠ 0 ∧ m2.count true ≠ s.data.length),
               { s with mask := some m2 })

/-- `Spectrum1D.resampleSpec` (spectrum1d.py lines 88-151): evaluates an
interpolant built from `(self._wave, self._data)` on `ref_wave` and wraps
it in a fresh `Spectrum1D`; error, mask and normalization are not
propagated.  The scipy spline/linear interpolation kernel is the external
primitive `interp nodesX nodesY evalPoints`. -/
def resampleSpec (interp : List ℚ → List ℚ → List ℚ → List ℚ)
    (s : Spectrum1D) (refWave : List ℚ) : Spectrum1D :=
  { wave := refWave
    data := interp s.wave s.data refWave
    error := none
    mask := none
    normalization := none
    velSampling := none }

/-- `Spectrum1D.applyGaussianLOSVD` (spectrum1d.py lines 169-199): the data
is smoothed by a Gaussian filter of width `disp_vel / self._vel_sampling`
pixels (the scipy filter is the external primitive `filt data sigmaPix`),
the wavelength grid is shifted by `* (1 + vel/300000)`, and the velocity
sampling is copied to the result.  An unset `_vel_sampling` raises an
AttributeError in Python. -/
def applyGaussianLOSVD (filt : List ℚ → ℚ → List ℚ)
    (s : Spectrum1D) (vel dispVel : ℚ) : Except PyError Spectrum1D :=
  match s.velSampling with
  | none => Except.error PyError.attributeError
  | some vs =>
    Except.ok
      { wave := s.wave.map (fun x => x * (1 + vel / 300000))
        data := filt s.data (dispVel / vs)
        error := none
        mask := none
        normalization := none
        velSampling := some vs }

/-- The per-point weight vector used by `fitSuperposition` (spectrum1d.py
lines 330-333): the stored error, or unit weights when the error is
unknown. -/
def usedError (s : Spectrum1D) : List ℚ :=
  match s.error with
  | none => List.replicate s.data.length 1
  | some e => e

/-- The mask update of `fitSuperposition` (spectrum1d.py lines 334-337):
when `mask_fit` is supplied, `self._mask` is overwritten with the union of
the existing mask and `mask_fit` (or with `mask_fit` itself when no mask
was set). -/
def applyMaskFit (s : Spectrum1D) (maskFit : Option (List Bool)) : Spectrum1D :=
  match maskFit, s.mask with
  | some mf, some m => { s with mask := some (List.zipWith (fun a b => a || b) m mf) }
  | some mf, none => { s with mask := some mf }
  | none, _ => s

/-- Modelled from the spec: the `SSPlibrary` template container
(`PyParadise/ssp.py` is not part of the analysed sources).  Per the spec,
it is an ordered collection of template spectra on a shared wavelength
grid, exposing a base count, subset selection preserving order, and
resampling onto a target grid. -/
structure SSPlibrary where
  wave : List ℚ
  base : List (List ℚ)
deriving DecidableEq, Repr

/-- Modelled from the spec: `SSPlibrary.getBaseNumber`, the number B of
templates. -/
def SSPlibrary.getBaseNumber (l : SSPlibrary) : ℕ := l.base.length

/-- Modelled from the spec: `SSPlibrary.subLibrary`, subset selection by a
boolean vector, preserving order. -/
def SSPlibrary.subLibrary (l : SSPlibrary) (select : List Bool) : SSPlibrary :=
  { wave := l.wave
    base := (l.base.zip select).filterMap (fun p => if p.2 then some p.1 else none) }

/-- Modelled from the spec: `SSPlibrary.resampleBase`, resampling every
template onto a target grid through the external interpolation
primitive. -/
def SSPlibrary.resampleBase (interp : List ℚ → List ℚ → List ℚ → List ℚ)
    (l : SSPlibrary) (refWave : List ℚ) : SSPlibrary :=
  { wave := refWave
    base := l.base.map (fun t => interp l.wave t refWave) }

/-- Modelled from the spec: the `fit_linearComb` helper of
`PyParadise/fit_profile.py` (not part of the analysed sources).  It holds
a template matrix and a coefficient vector; calling it evaluates the
weighted sum of the templates, and `chisq` is the weighted sum of squared
residuals over unmasked points. -/
structure fit_linearComb where
  base : List (List ℚ)
  coeff : List ℚ
deriving DecidableEq, Repr

/-- Pointwise scaling of a data vector. -/
def vecScale (c : ℚ) (v : List ℚ) : List ℚ := v.map (fun x => c * x)

/-- Pointwise sum of two data vectors. -/
def vecAdd (a b : List ℚ) : List ℚ := List.zipWith (fun x y => x + y) a b

/-- Modelled from the spec: evaluation of a linear combination of
templates, `sum_j coeff_j * base_j` taken pointwise (the call operator of
`fit_linearComb`). -/
def evalComb : List ℚ → List (List ℚ) → List ℚ
  | c :: cs, t :: ts =>
    match cs, ts with
    | [], [] => vecScale c t
    | _, _ => vecAdd (vecScale c t) (evalComb cs ts)
  | _, _ => []

/-- Modelled from the spec: the chi-square statistic,
`sum over unmasked i of ((data_i - model_i) / sigma_i)^2`. -/
def chiSquare (data model sigma : List ℚ) (mask : List Bool) : ℚ :=
  (((data.zip model).zip (sigma.zip mask)).map
    (fun p => if p.2.2 then 0 else ((p.1.1 - p.1.2) / p.2.1) ^ 2)).sum

/-- Modelled from the spec: `fit_linearComb.chisq`, reporting chi-square
with the same per-point error weighting as the fit. -/
def fit_linearComb.chisq (f : fit_linearComb) (data sigma : List ℚ)
    (mask : List Bool) : ℚ :=
  chiSquare data (evalComb f.coeff f.base) sigma mask

/-- The grid test of `fitSuperposition` (spectrum1d.py lines 343-346): the
library is resampled onto the spectrum wavelength grid when the lengths
differ or the sum of the elementwise grid differences is nonzero. -/
def resampleOrKeep (interp : List ℚ → List ℚ → List ℚ → List ℚ)
    (lib : SSPlibrary) (wave : List ℚ) : SSPlibrary :=
  if lib.wave.length ≠ wave.length ∨
      (List.zipWith (fun a b => a - b) lib.wave wave).sum ≠ 0 then
    lib.resampleBase interp wave
  else lib

/-- The `(coeff, bestfit_spec, chisq)` triple returned by
`fitSuperposition`. -/
structure FitResult where
  coeff : List ℚ
  bestfit : Spectrum1D
  chi2 : ℚ
deriving DecidableEq, Repr

/-- The kinematic-broadening step of `fitSuperposition` (spectrum1d.py
lines 341-342): the library is broadened through the external primitive
`broaden` when both `vel` and `disp` are supplied, and left untouched
otherwise. -/
def broadenedLib (broaden : SSPlibrary → ℚ → ℚ → SSPlibrary)
    (lib0 : SSPlibrary) (vel disp : Option ℚ) : SSPlibrary :=
  match vel, disp with
  | some v, some d => broaden lib0 v d
  | _, _ => lib0

/-- The `fit_linearComb` object built by `fitSuperposition` (spectrum1d.py
lines 347-351): templates from the broadened-and-resampled library; the
coefficient vector is fixed to `[1]` for a single-template library (and
`fit` is never invoked), otherwise it comes from the least-squares solver
— the `fit` method of `fit_linearComb`, taken as the argument `solver`
and handed the templates, data, error, mask and the `negative` flag. -/
def mainLibFit (interp : List ℚ → List ℚ → List ℚ → List ℚ)
    (broaden : SSPlibrary → ℚ → ℚ → SSPlibrary)
    (solver : List (List ℚ) → List ℚ → List ℚ → List Bool → Bool → List ℚ)
    (s : Spectrum1D) (lib0 : SSPlibrary) (vel disp : Option ℚ)
    (m : List Bool) (negative : Bool) : fit_linearComb :=
  if (broadenedLib broaden lib0 vel disp).getBaseNumber = 1 then
    ⟨(resampleOrKeep interp (broadenedLib broaden lib0 vel disp) s.wave).base, [1]⟩
  else
    ⟨(resampleOrKeep interp (broadenedLib broaden lib0 vel disp) s.wave).base,
     solver (resampleOrKeep interp (broadenedLib broaden lib0 vel disp) s.wave).base
       s.data (usedError s) m negative⟩

/-- `Spectrum1D.fitSuperposition`, main path (spectrum1d.py lines
330-354): default the error to unit weights, fold `mask_fit` into the
stored mask in place, raise a ValueError when every point is masked,
optionally broaden the library, resample it onto the spectrum grid when
the grids differ, build the `fit_linearComb` (running the solver unless
the library has a single template), and return the coefficients, the
best-fit spectrum (carrying the updated mask and the normalization) and
the chi-square, together with the post-call spectrum state. -/
def fitSuperpositionMain (interp : List ℚ → List ℚ → List ℚ → List ℚ)
    (broaden : SSPlibrary → ℚ → ℚ → SSPlibrary)
    (solver : List (List ℚ) → List ℚ → List ℚ → List Bool → Bool → List ℚ)
    (s : Spectrum1D) (lib0 : SSPlibrary) (vel disp : Option ℚ)
    (maskFit : Option (List Bool)) (negative : Bool) :
    Except PyError (FitResult × Spectrum1D) :=
  match (applyMaskFit s maskFit).mask with
  | none => Except.error PyError.attributeError
  | some m =>
    if m.all (fun b => b) then Except.error PyError.valueError
    else
      Except.ok
        (⟨(mainLibFit interp broaden solver s lib0 vel disp m negative).coeff,
          { wave := s.wave
            data := evalComb (mainLibFit interp broaden solver s lib0 vel disp m negative).coeff
              (mainLibFit interp broaden solver s lib0 vel disp m negative).base
            error := none
            mask := some m
            normalization := (applyMaskFit s maskFit).normalization
            velSampling := none },
          (mainLibFit interp broaden solver s lib0 vel disp m negative).chisq
            s.data (usedError s) m⟩,
         applyMaskFit s maskFit)

/-- The one-hot selection vector `select` built in the auto-select loops
(spectrum1d.py lines 322-323 and 495-496). -/
def selectOne (B i : ℕ) : List Bool := (List.range B).map (fun j => decide (j = i))

/-- The `nlib_guess == 0` loop of `fitSuperposition` (spectrum1d.py lines
318-329): fit every single-template sub-library in turn, keep the result
with the smallest chi-square (the initial best is `[numpy.inf]`, modelled
by `none`), and finally return the winning boolean selection vector with
the best fit.  Python raises an IndexError on `bestresult[1]` when the
loop body never ran. -/
def fitSuperpositionAuto (interp : List ℚ → List ℚ → List ℚ → List ℚ)
    (broaden : SSPlibrary → ℚ → ℚ → SSPlibrary)
    (solver : List (List ℚ) → List ℚ → List ℚ → List Bool → Bool → List ℚ)
    (lib : SSPlibrary) (vel disp : Option ℚ) (maskFit : Option (List Bool))
    (negative : Bool) :
    List ℕ → Option FitResult → Option (List Bool) → Spectrum1D →
    Except PyError (FitResult × Spectrum1D)
  | [], best, sel, s =>
    match best, sel with
    | some r, some sl =>
      Except.ok (⟨sl.map (fun b => if b then (1 : ℚ) else 0), r.bestfit, r.chi2⟩, s)
    | _, _ => Except.error PyError.indexError
  | i :: rest, best, sel, s =>
    match fitSuperpositionMain interp broaden solver s
        (lib.subLibrary (selectOne lib.getBaseNumber i)) vel disp maskFit negative with
    | Except.error e => Except.error e
    | Except.ok (r, s1) =>
      let better := match best with
        | none => true
        | some b => decide (r.chi2 < b.chi2)
      if better then
        fitSuperpositionAuto interp broaden solver lib vel disp maskFit negative
          rest (some r) (some (selectOne lib.getBaseNumber i)) s1
      else
        fitSuperpositionAuto interp broaden solver lib vel disp maskFit negative
          rest best sel s1

/-- `Spectrum1D.fitSuperposition` (spectrum1d.py lines 295-354): dispatch
between the auto-select loop (`nlib_guess == 0`) and the main fitting
path. -/
def fitSuperposition (interp : List ℚ → List ℚ → List ℚ → List ℚ)
    (broaden : SSPlibrary → ℚ → ℚ → SSPlibrary)
    (solver : List (List ℚ) → List ℚ → List ℚ → List Bool → Bool → List ℚ)
    (s : Spectrum1D) (lib : SSPlibrary) (nlibGuess : Option ℤ)
    (vel disp : Option ℚ) (maskFit : Option (List Bool)) (negative : Bool) :
    Except PyError (FitResult × Spectrum1D) :=
  if nlibGuess = some 0 then
    fitSuperpositionAuto interp broaden solver lib vel disp maskFit negative
      (List.range lib.getBaseNumber) none none s
  else
    fitSuperpositionMain interp broaden solver s lib vel disp maskFit negative

/-- A dynamically typed Python value, as needed for the heterogeneous
tuples returned by `fit_Kin_Lib_simple`. -/
inductive PyVal where
  | num (q : ℚ)
  | inf
  | noneVal
  | spec (s : Spectrum1D)
  | arr (l : List ℚ)
deriving DecidableEq, Repr

/-- Python 3 semantics of `<` on the values above: numbers (and
`numpy.inf`) compare numerically; comparing `None` (or a spectrum or an
array) with a float raises a TypeError. -/
def pyLt : PyVal → PyVal → Except PyError Bool
  | PyVal.num a, PyVal.num b => Except.ok (decide (a < b))
  | PyVal.num _, PyVal.inf => Except.ok true
  | PyVal.inf, PyVal.num _ => Except.ok false
  | PyVal.inf, PyVal.inf => Except.ok false
  | _, _ => Except.error PyError.typeError

/-- The nine meaningful components that a completed non-auto run of
`fit_Kin_Lib_simple` has computed when it reaches its return statement. -/
structure KinFitCore where
  vel : ℚ
  velErr : ℚ
  Rvel : ℚ
  disp : ℚ
  dispErr : ℚ
  Rdisp : ℚ
  bestfit : Spectrum1D
  coeff : List ℚ
  chi2 : ℚ
deriving DecidableEq, Repr

/-- The return statement of `fit_Kin_Lib_simple` (spectrum1d.py lines
563-566): an 11-tuple, ending in the two traces when `sample_out` is set
and in `(None, None)` otherwise. -/
def kinFitReturn (c : KinFitCore) (sampleOut : Bool)
    (traceVel traceDisp : List ℚ) : List PyVal :=
  if sampleOut then
    [PyVal.num c.vel, PyVal.num c.velErr, PyVal.num c.Rvel,
     PyVal.num c.disp, PyVal.num c.dispErr, PyVal.num c.Rdisp,
     PyVal.spec c.bestfit, PyVal.arr c.coeff, PyVal.num c.chi2,
     PyVal.arr traceVel, PyVal.arr traceDisp]
  else
    [PyVal.num c.vel, PyVal.num c.velErr, PyVal.num c.Rvel,
     PyVal.num c.disp, PyVal.num c.dispErr, PyVal.num c.Rdisp,
     PyVal.spec c.bestfit, PyVal.arr c.coeff, PyVal.num c.chi2,
     PyVal.noneVal, PyVal.noneVal]

/-- The `nlib_guess == 0` loop of `fit_Kin_Lib_simple` (spectrum1d.py
lines 491-502): for each template, run the full coupled fit on the
single-template sub-library (`inner`, abstracting the recursive call with
`nlib_guess = 1`, whose value is the tuple of `kinFitReturn`), then
compare `result[-1] < bestresult[-1]` with Python comparison semantics;
`bestresult` starts as `[numpy.inf]`. -/
def fit_Kin_Lib_simple_autoLoop (inner : SSPlibrary → Except PyError (List PyVal))
    (lib : SSPlibrary) :
    List ℕ → List PyVal → Option (List Bool) →
    Except PyError (List PyVal × Option (List Bool))
  | [], bestresult, coeff => Except.ok (bestresult, coeff)
  | i :: rest, bestresult, coeff =>
    match inner (lib.subLibrary (selectOne lib.getBaseNumber i)) with
    | Except.error e => Except.error e
    | Except.ok result =>
      match result.getLast?, bestresult.getLast? with
      | some rl, some bl =>
        match pyLt rl bl with
        | Except.error e => Except.error e
        | Except.ok true => fit_Kin_Lib_simple_autoLoop inner lib rest result
            (some (selectOne lib.getBaseNumber i))
        | Except.ok false => fit_Kin_Lib_simple_autoLoop inner lib rest bestresult coeff
      | _, _ => Except.error PyError.indexError

/-- The `nlib_guess == 0` branch of `fit_Kin_Lib_simple` (spectrum1d.py
lines 491-504): run the loop, then unpack the nine names
`vel, vel_err, Rvel, disp, disp_err, Rdisp, bestfit_spec, trash, chi2`
from `bestresult` (a ValueError when the arity differs) and return the
nine-element result with the winning selection vector as coefficient. -/
def fit_Kin_Lib_simple_auto (inner : SSPlibrary → Except PyError (List PyVal))
    (lib : SSPlibrary) : Except PyError (List PyVal) :=
  match fit_Kin_Lib_simple_autoLoop inner lib (List.range lib.getBaseNumber)
      [PyVal.inf] none with
  | Except.error e => Except.error e
  | Except.ok (bestresult, coeff) =>
    if bestresult.length = 9 then
      Except.ok
        [bestresult.getD 0 PyVal.noneVal, bestresult.getD 1 PyVal.noneVal,
         bestresult.getD 2 PyVal.noneVal, bestresult.getD 3 PyVal.noneVal,
         bestresult.getD 4 PyVal.noneVal, bestresult.getD 5 PyVal.noneVal,
         bestresult.getD 6 PyVal.noneVal,
         (match coeff with
          | some sel => PyVal.arr (sel.map (fun b => if b then (1 : ℚ) else 0))
          | none => PyVal.noneVal),
         bestresult.getD 8 PyVal.noneVal]
    else Except.error PyError.valueError

/-- Arithmetic mean of a list of rationals (`numpy.mean`). -/
def listMean (l : List ℚ) : ℚ := l.sum / l.length

/-- Sample variance with one delta degree of freedom
(`numpy.var(..., ddof=1)`). -/
def sampleVar (l : List ℚ) : ℚ :=
  ((l.map (fun x => (x - listMean l) ^ 2)).sum) / ((l.length : ℚ) - 1)

/-- The number of post-burn samples per chain, `trace.shape[0]`
(spectrum1d.py line 553).  The trace is stored here as a list of chains,
each chain a list of samples. -/
def traceSamples (trace : List (List ℚ)) : ℚ := ((trace.headD []).length : ℚ)

/-- The between-chain statistic `B = n * numpy.var(trace.mean(axis=0),
ddof=1)` of spectrum1d.py lines 555 and 559. -/
def gelmanB (trace : List (List ℚ)) : ℚ :=
  traceSamples trace * sampleVar (trace.map listMean)

/-- The mean within-chain variance `W = numpy.mean(numpy.var(trace,
axis=0, ddof=1))` of spectrum1d.py lines 556 and 560. -/
def gelmanW (trace : List (List ℚ)) : ℚ := listMean (trace.map sampleVar)

/-- The square of the convergence diagnostic computed in the emcee branch,
`R = numpy.sqrt(1 - 1/n + B/n/W)` (spectrum1d.py lines 557 and 561). -/
def rhatSq (trace : List (List ℚ)) : ℚ :=
  1 - 1 / traceSamples trace + gelmanB trace / traceSamples trace / gelmanW trace

/-- The convergence-diagnostic dispatch of `fit_Kin_Lib_simple`
(spectrum1d.py lines 544-561), squared: with the pymc backend the external
`pymc.gelman_rubin` value (the argument `pymcGRSq`, squared) is reported
for more than 2 walkers and `0` otherwise; with any other backend (the
default is emcee) the `rhatSq` formula is computed from the trace,
whatever the number of chains. -/
def convergenceDiagnosticSq (usePymc : Bool) (walkers : ℕ) (pymcGRSq : ℚ)
    (trace : List (List ℚ)) : ℚ :=
  if usePymc then (if 2 < walkers then pymcGRSq else 0)
  else rhatSq trace

/-- Invariant carried through the auto-select loop of `fitSuperposition`:
the returned chi-square is the chi-square recomputed from the original
data, the returned best-fit spectrum, the fit weights and the best-fit
mask. -/
def chi2Consistent (s : Spectrum1D) (r : FitResult) : Prop :=
  ∃ m, r.bestfit.mask = some m ∧
    r.chi2 = chiSquare s.data r.bestfit.data (usedError s) m


/-! ### Concrete inputs used to witness the theorems below -/

/-- A concrete stand-in for the external interpolation primitive. -/
def cInterp : List ℚ → List ℚ → List ℚ → List ℚ := fun _ d _ => d

/-- A concrete stand-in for the external library-broadening primitive. -/
def cBroaden : SSPlibrary → ℚ → ℚ → SSPlibrary := fun l _ _ => l

/-- A concrete solver always returning the weight vector `[1]`
(nonnegative, as the non-negative least-squares contract demands). -/
def cSolver : List (List ℚ) → List ℚ → List ℚ → List Bool → Bool → List ℚ :=
  fun _ _ _ _ _ => [1]

/-- A second concrete solver, returning the empty weight vector. -/
def cSolver2 : List (List ℚ) → List ℚ → List ℚ → List Bool → Bool → List ℚ :=
  fun _ _ _ _ _ => []

/-- A concrete two-point spectrum with an all-clear mask. -/
def cSpec : Spectrum1D :=
  ⟨[1, 2], [1, 1], none, some [false, false], none, none⟩

/-- A concrete single-template library on a one-point grid (so the grid
test forces a resampling step without rational arithmetic). -/
def cLib : SSPlibrary := ⟨[1], [[1, 1]]⟩

/-- The fit result of running `fitSuperposition` on `cSpec` and `cLib`
with no extra arguments. -/
def cResult : FitResult :=
  ⟨[1],
   ⟨[1, 2], evalComb [1] [[1, 1]], none, some [false, false], none, none⟩,
   chiSquare [1, 1] (evalComb [1] [[1, 1]]) (usedError cSpec) [false, false]⟩

/-- A concrete fully masked spectrum. -/
def c2spec : Spectrum1D :=
  ⟨[1, 2], [1, 1], none, some [true, true], none, none⟩

/-- The fit result of running `fitSuperposition` on `cSpec` and `cLib`
with `mask_fit = [True, False]`. -/
def c3result : FitResult :=
  ⟨[1],
   ⟨[1, 2], evalComb [1] [[1, 1]], none, some [true, false], none, none⟩,
   chiSquare [1, 1] (evalComb [1] [[1, 1]]) (usedError cSpec) [true, false]⟩

/-- The spectrum state after that `mask_fit` call: the mask has been
overwritten. -/
def c3after : Spectrum1D :=
  ⟨[1, 2], [1, 1], none, some [true, false], none, none⟩

/-- A concrete single-template library for the auto-select loop. -/
def c4lib : SSPlibrary := ⟨[1], [[1]]⟩

/-- Concrete values for the nine components of a completed inner fit. -/
def c4core : KinFitCore :=
  ⟨0, 0, 0, 0, 0, 0, ⟨[], [], none, none, none, none⟩, [], 0⟩

/-- A concrete inner fit that always completes and returns the
`sample_out = False` shaped 11-tuple. -/
def c4inner : SSPlibrary → Except PyError (List PyVal) :=
  fun _ => Except.ok (kinFitReturn c4core false [] [])

/-- A concrete two-point spectrum with unit normalization entries. -/
def w8spec : Spectrum1D :=
  { wave := [1, 2], data := [3, 4], error := some [1, 1], mask := none,
    normalization := some [1, 1], velSampling := none }

/-- A concrete spectrum with one nonpositive error entry. -/
def w9spec : Spectrum1D :=
  { wave := [1, 2], data := [5, 6], error := some [-1, 2],
    mask := some [false, false], normalization := none, velSampling := none }

/-- A concrete three-point spectrum with an all-clear mask. -/
def w10spec : Spectrum1D :=
  { wave := [1, 2, 3], data := [1, 1, 1], error := none,
    mask := some [false, false, false], normalization := none, velSampling := none }

/-- A concrete spectrum with a defined velocity sampling. -/
def w7spec : Spectrum1D :=
  { wave := [1, 2], data := [3, 4], error := none, mask := none,
    normalization := none, velSampling := some 1 }

/-- A trivial stand-in for the external Gaussian filter (identity at every
width), satisfying the width-zero identity contract. -/
def w7filt : List ℚ → ℚ → List ℚ := fun d _ => d

/-- A trivial stand-in for the external interpolation primitive (returns
the node values), satisfying the interpolation contract at the nodes. -/
def w7interp : List ℚ → List ℚ → List ℚ → List ℚ := fun _ y _ => y

/-! ### Helper lemmas -/

/-- Index lemma: `getD` through `zipWith`, with arbitrary defaults, at an
in-bounds index. -/
theorem zipWith_getD {α β γ : Type} (f : α → β → γ) (a : List α) (b : List β)
    (i : ℕ) (ha : i < a.length) (hb : i < b.length) (da : α) (db : β) (dc : γ) :
    (List.zipWith f a b).getD i dc = f (a.getD i da) (b.getD i db) := by
  have hz : i < (List.zipWith f a b).length := by
    simp only [List.length_zipWith, lt_min_iff]; exact ⟨ha, hb⟩
  rw [List.getD_eq_getElem _ _ hz, List.getD_eq_getElem _ _ ha, List.getD_eq_getElem _ _ hb]
  simp [List.getElem_zipWith]

/-- Index lemma: `getD` through `map`, with arbitrary defaults, at an
in-bounds index. -/
theorem map_getD {α β : Type} (f : α → β) (a : List α) (i : ℕ)
    (ha : i < a.length) (da : α) (db : β) :
    (a.map f).getD i db = f (a.getD i da) := by
  have hz : i < (a.map f).length := by simpa using ha
  rw [List.getD_eq_getElem _ _ hz, List.getD_eq_getElem _ _ ha]
  simp

/-- Pointwise division undoes pointwise multiplication by a nowhere-zero
vector. -/
theorem zip_mul_div (d : List ℚ) :
    ∀ n : List ℚ, (∀ x ∈ n, x ≠ 0) → d.length ≤ n.length →
      List.zipWith (fun a b => a / b) (List.zipWith (fun a b => a * b) d n) n = d := by
  induction d with
  | nil => intro n _ _; simp
  | cons a d ih =>
    intro n hz hl
    cases n with
    | nil => simp at hl
    | cons b n =>
      simp only [List.zipWith]
      refine congrArg₂ _ ?_ ?_
      · exact mul_div_cancel_right₀ a (hz b (by simp))
      · exact ih n (fun x hx => hz x (by simp [hx])) (by simpa using hl)

/-- Scaling a data vector by one is the identity. -/
theorem vecScale_one (v : List ℚ) : vecScale 1 v = v := by
  simp [vecScale]

/-- `applyMaskFit` never touches the wavelength grid. -/
theorem applyMaskFit_wave (s : Spectrum1D) (mf : Option (List Bool)) :
    (applyMaskFit s mf).wave = s.wave := by
  unfold applyMaskFit; rcases mf with _ | mf <;> rcases hs : s.mask with _ | m <;> simp [hs]

/-- `applyMaskFit` never touches the data. -/
theorem applyMaskFit_data (s : Spectrum1D) (mf : Option (List Bool)) :
    (applyMaskFit s mf).data = s.data := by
  unfold applyMaskFit; rcases mf with _ | mf <;> rcases hs : s.mask with _ | m <;> simp [hs]

/-- `applyMaskFit` never touches the error. -/
theorem applyMaskFit_error (s : Spectrum1D) (mf : Option (List Bool)) :
    (applyMaskFit s mf).error = s.error := by
  unfold applyMaskFit; rcases mf with _ | mf <;> rcases hs : s.mask with _ | m <;> simp [hs]

/-- `applyMaskFit` never touches the normalization. -/
theorem applyMaskFit_normalization (s : Spectrum1D) (mf : Option (List Bool)) :
    (applyMaskFit s mf).normalization = s.normalization := by
  unfold applyMaskFit; rcases mf with _ | mf <;> rcases hs : s.mask with _ | m <;> simp [hs]

/-- With no `mask_fit`, the mask update is the identity. -/
theorem applyMaskFit_none (s : Spectrum1D) : applyMaskFit s none = s := by
  unfold applyMaskFit; rcases hs : s.mask with _ | m <;> simp [hs]

/-- Elementwise boolean or is idempotent. -/
theorem zipWith_or_self (m : List Bool) :
    List.zipWith (fun a b => a || b) m m = m := by
  induction m with
  | nil => rfl
  | cons a m ih => simp [List.zipWith, ih]

/-- Folding the same mask in twice is the same as folding it in once. -/
theorem zipWith_or_idem (m : List Bool) :
    ∀ mf : List Bool,
      List.zipWith (fun a b => a || b) (List.zipWith (fun a b => a || b) m mf) mf =
        List.zipWith (fun a b => a || b) m mf := by
  induction m with
  | nil => intro mf; simp
  | cons a m ih =>
    intro mf
    cases mf with
    | nil => rfl
    | cons b mf => simp [List.zipWith, Bool.or_assoc, ih]

/-- Applying the `mask_fit` update twice is the same as applying it
once. -/
theorem applyMaskFit_idem (s : Spectrum1D) (mf : Option (List Bool)) :
    applyMaskFit (applyMaskFit s mf) mf = applyMaskFit s mf := by
  rcases mf with _ | mf
  · rw [applyMaskFit_none, applyMaskFit_none]
  · cases s with
    | mk wave data error mask normalization velSampling =>
      rcases mask with _ | m
      · simp [applyMaskFit, zipWith_or_self]
      · simp [applyMaskFit, zipWith_or_idem]

/-- The per-point weight vector only depends on the data and error
fields. -/
theorem usedError_congr (t s : Spectrum1D) (hd : t.data = s.data)
    (he : t.error = s.error) : usedError t = usedError s := by
  unfold usedError; rw [hd, he]

/-- The chi-square consistency invariant only depends on the data and
error fields of the reference spectrum. -/
theorem chi2Consistent_congr (t s : Spectrum1D) (r : FitResult)
    (hd : t.data = s.data) (he : t.error = s.error) :
    chi2Consistent t r → chi2Consistent s r := by
  intro ⟨m, h1, h2⟩
  exact ⟨m, h1, by rw [← hd, ← usedError_congr t s hd he]; exact h2⟩

/-! ### C9: error correction -/

/-- C9: for every spectrum with an error array (and a mask), after
`correctError` with the default sentinel every index whose error value was
`<= 0` has its error replaced by `1e10` and its mask entry set to `True`,
while all other error, mask and data entries are unchanged. -/
theorem correctError_spec (s : Spectrum1D) (e : List ℚ) (m : List Bool)
    (he : s.error = some e) (hm : s.mask = some m) (hlen : m.length = e.length) :
    (correctError s (10 ^ 10)).data = s.data ∧
    (correctError s (10 ^ 10)).wave = s.wave ∧
    (correctError s (10 ^ 10)).normalization = s.normalization ∧
    ∃ e1 m1, (correctError s (10 ^ 10)).error = some e1 ∧
      (correctError s (10 ^ 10)).mask = some m1 ∧
      ∀ i, i < e.length →
        (e.getD i 0 ≤ 0 →
          e1.getD i 0 = 10 ^ 10 ∧ m1.getD i false = true) ∧
        (¬ e.getD i 0 ≤ 0 →
          e1.getD i 0 = e.getD i 0 ∧ m1.getD i false = m.getD i false) := by
  obtain ⟨wave, data, error, mask, nrm, vsamp⟩ := s
  cases he
  cases hm
  refine ⟨rfl, rfl, rfl, _, _, rfl, rfl, ?_⟩
  intro i hi
  have hie : i < (e.map (fun x => decide (x ≤ 0))).length := by simpa using hi
  have him : i < m.length := by omega
  have hsel : (e.map (fun x => decide (x ≤ 0))).getD i false = decide (e.getD i 0 ≤ 0) :=
    map_getD _ e i hi 0 false
  have h1 : (List.zipWith (fun x si => if si then (10 : ℚ) ^ 10 else x) e
        (e.map (fun x => decide (x ≤ 0)))).getD i 0
      = if decide (e.getD i 0 ≤ 0) then (10 : ℚ) ^ 10 else e.getD i 0 := by
    rw [zipWith_getD _ e _ i hi hie 0 false, hsel]
  have h2 : (List.zipWith (fun mi si => mi || si) m
        (e.map (fun x => decide (x ≤ 0)))).getD i false
      = (m.getD i false || decide (e.getD i 0 ≤ 0)) := by
    rw [zipWith_getD _ m _ i him hie false false, hsel]
  by_cases hx : e.getD i 0 ≤ 0
  · exact ⟨fun _ => ⟨by rw [h1, if_pos (decide_eq_true hx)],
                     by rw [h2, decide_eq_true hx, Bool.or_true]⟩,
           fun hco => absurd hx hco⟩
  · exact ⟨fun hco => absurd hco hx,
           fun _ => ⟨by rw [h1, decide_eq_false hx, if_neg Bool.false_ne_true],
                     by rw [h2, decide_eq_false hx, Bool.or_false]⟩⟩

/-- Witness for C9 at a concrete spectrum. -/
theorem correctError_spec_witness :
    (correctError w9spec (10 ^ 10)).data = w9spec.data ∧
    (correctError w9spec (10 ^ 10)).wave = w9spec.wave ∧
    (correctError w9spec (10 ^ 10)).normalization = w9spec.normalization ∧
    ∃ e1 m1, (correctError w9spec (10 ^ 10)).error = some e1 ∧
      (correctError w9spec (10 ^ 10)).mask = some m1 ∧
      ∀ i, i < ([(-1 : ℚ), 2]).length →
        (([(-1 : ℚ), 2]).getD i 0 ≤ 0 →
          e1.getD i 0 = 10 ^ 10 ∧ m1.getD i false = true) ∧
        (¬ ([(-1 : ℚ), 2]).getD i 0 ≤ 0 →
          e1.getD i 0 = ([(-1 : ℚ), 2]).getD i 0 ∧
            m1.getD i false = ([false, false]).getD i false) :=
  correctError_spec w9spec [(-1 : ℚ), 2] [false, false] rfl rfl rfl

/-! ### C8: normalization round trip -/

/-- C8: removing the normalization and re-applying the same normalization
factor returns the original data (exactly, over exact arithmetic),
provided every normalization entry is nonzero. -/
theorem unnormalized_applyNormalization_roundtrip (s : Spectrum1D) (nrm : List ℚ)
    (hn : s.normalization = some nrm) (hz : ∀ x ∈ nrm, x ≠ 0)
    (hl : s.data.length ≤ nrm.length) :
    ∃ u, unnormalizedSpec s = Except.ok u ∧ (applyNormalization u nrm).data = s.data := by
  obtain ⟨wave, data, error, mask, nrm0, vsamp⟩ := s
  cases hn
  refine ⟨_, rfl, ?_⟩
  dsimp only [unnormalizedSpec, applyNormalization]
  exact zip_mul_div data nrm hz hl

/-- Witness for C8 at a concrete normalized spectrum. -/
theorem unnormalized_applyNormalization_roundtrip_witness :
    ∃ u, unnormalizedSpec w8spec = Except.ok u ∧
      (applyNormalization u [1, 1]).data = w8spec.data :=
  unnormalized_applyNormalization_roundtrip w8spec [1, 1] rfl (by simp)
    (by simp [w8spec])

/-! ### C10: `hasData` mutates the mask -/

/-- C10: whenever `start_wave` or `end_wave` is supplied, `hasData` sets
the mask entry of every point with wavelength below `start_wave` or above
`end_wave` to `True`, the updated mask persists in the spectrum state
after the call, and the availability test is evaluated on the updated
mask. -/
theorem hasData_mutates_mask (s : Spectrum1D) (m : List Bool) (sw ew : Option ℚ)
    (hm : s.mask = some m) (hlen : m.length = s.wave.length) :
    ∃ b m2, hasData s sw ew = Except.ok (b, { s with mask := some m2 }) ∧
      (∀ i w, sw = some w → i < s.wave.length → s.wave.getD i 0 < w →
        m2.getD i false = true) ∧
      (∀ i w, ew = some w → i < s.wave.length → w < s.wave.getD i 0 →
        m2.getD i false = true) ∧
      b = decide (s.data.sum ≠ 0 ∧ m2.count true ≠ s.data.length) := by
  rcases sw with _ | w1 <;> rcases ew with _ | w2
  · have hcall : hasData s none none = Except.ok
        (decide (s.data.sum ≠ 0 ∧ m.count true ≠ s.data.length),
         { s with mask := some m }) := by
      unfold hasData; rw [hm]
    refine ⟨_, m, hcall, ?_, ?_, rfl⟩
    · intro i w h; exact nomatch h
    · intro i w h; exact nomatch h
  · have hcall : hasData s none (some w2) = Except.ok
        (decide (s.data.sum ≠ 0 ∧ (List.zipWith (fun mi b => mi || b) m
            (s.wave.map (fun x => decide (w2 < x)))).count true ≠ s.data.length),
         { s with mask := some (List.zipWith (fun mi b => mi || b) m
            (s.wave.map (fun x => decide (w2 < x)))) }) := by
      unfold hasData; rw [hm]
    refine ⟨_, _, hcall, ?_, ?_, rfl⟩
    · intro i w h; exact nomatch h
    · intro i w h hi hgt
      cases h
      have him : i < m.length := by omega
      have hie : i < (s.wave.map (fun x => decide (w2 < x))).length := by simpa using hi
      rw [zipWith_getD _ m _ i him hie false false, map_getD _ s.wave i hi 0 false,
        decide_eq_true hgt, Bool.or_true]
  · have hcall : hasData s (some w1) none = Except.ok
        (decide (s.data.sum ≠ 0 ∧ (List.zipWith (fun mi b => mi || b) m
            (s.wave.map (fun x => decide (x < w1)))).count true ≠ s.data.length),
         { s with mask := some (List.zipWith (fun mi b => mi || b) m
            (s.wave.map (fun x => decide (x < w1)))) }) := by
      unfold hasData; rw [hm]
    refine ⟨_, _, hcall, ?_, ?_, rfl⟩
    · intro i w h hi hlt
      cases h
      have him : i < m.length := by omega
      have hie : i < (s.wave.map (fun x => decide (x < w1))).length := by simpa using hi
      rw [zipWith_getD _ m _ i him hie false false, map_getD _ s.wave i hi 0 false,
        decide_eq_true hlt, Bool.or_true]
    · intro i w h; exact nomatch h
  · have hcall : hasData s (some w1) (some w2) = Except.ok
        (decide (s.data.sum ≠ 0 ∧ (List.zipWith (fun mi b => mi || b)
            (List.zipWith (fun mi b => mi || b) m (s.wave.map (fun x => decide (x < w1))))
            (s.wave.map (fun x => decide (w2 < x)))).count true ≠ s.data.length),
         { s with mask := some (List.zipWith (fun mi b => mi || b)
            (List.zipWith (fun mi b => mi || b) m (s.wave.map (fun x => decide (x < w1))))
            (s.wave.map (fun x => decide (w2 < x)))) }) := by
      unfold hasData; rw [hm]
    have hm1len : (List.zipWith (fun mi b => mi || b) m
        (s.wave.map (fun x => decide (x < w1)))).length = s.wave.length := by
      simp [List.length_zipWith, hlen]
    refine ⟨_, _, hcall, ?_, ?_, rfl⟩
    · intro i w h hi hlt
      cases h
      have him : i < m.length := by omega
      have him1 : i < (List.zipWith (fun mi b => mi || b) m
          (s.wave.map (fun x => decide (x < w1)))).length := by rw [hm1len]; exact hi
      have hie1 : i < (s.wave.map (fun x => decide (x < w1))).length := by simpa using hi
      have hie2 : i < (s.wave.map (fun x => decide (w2 < x))).length := by simpa using hi
      rw [zipWith_getD _ _ _ i him1 hie2 false false,
        zipWith_getD _ m _ i him hie1 false false, map_getD _ s.wave i hi 0 false,
        decide_eq_true hlt, Bool.or_true, Bool.true_or]
    · intro i w h hi hgt
      cases h
      have him1 : i < (List.zipWith (fun mi b => mi || b) m
          (s.wave.map (fun x => decide (x < w1)))).length := by rw [hm1len]; exact hi
      have hie2 : i < (s.wave.map (fun x => decide (w2 < x))).length := by simpa using hi
      rw [zipWith_getD _ _ _ i him1 hie2 false false, map_getD _ s.wave i hi 0 false,
        decide_eq_true hgt, Bool.or_true]

/-- Witness for C10 at a concrete spectrum with both limits supplied. -/
theorem hasData_mutates_mask_witness :
    ∃ b m2, hasData w10spec (some (3 / 2)) (some (5 / 2)) =
        Except.ok (b, { w10spec with mask := some m2 }) ∧
      (∀ i w, some ((3 : ℚ) / 2) = some w → i < w10spec.wave.length →
        w10spec.wave.getD i 0 < w → m2.getD i false = true) ∧
      (∀ i w, some ((5 : ℚ) / 2) = some w → i < w10spec.wave.length →
        w < w10spec.wave.getD i 0 → m2.getD i false = true) ∧
      b = decide (w10spec.data.sum ≠ 0 ∧ m2.count true ≠ w10spec.data.length) :=
  hasData_mutates_mask w10spec [false, false, false] (some (3 / 2)) (some (5 / 2)) rfl rfl

/-! ### C7: null-kinematics broaden-then-resample round trip -/

/-- C7: for a spectrum with a defined (nonzero) velocity sampling,
broadening by `(vel = 0, disp_vel = 0)` and resampling back onto the
original wavelength grid returns the original data, assuming the external
Gaussian filter is the identity at width zero and the external
interpolant reproduces the node values at the nodes. -/
theorem losvd_resample_roundtrip (filt : List ℚ → ℚ → List ℚ)
    (interp : List ℚ → List ℚ → List ℚ → List ℚ) (s : Spectrum1D) (vs : ℚ)
    (hvs : s.velSampling = some vs) (_hvs0 : vs ≠ 0)
    (hfilt : filt s.data 0 = s.data)
    (hinterp : interp s.wave s.data s.wave = s.data) :
    ∃ b, applyGaussianLOSVD filt s 0 0 = Except.ok b ∧
      (resampleSpec interp b s.wave).data = s.data := by
  obtain ⟨wave, data, error, mask, nrm, vsamp⟩ := s
  cases hvs
  dsimp only at hfilt hinterp
  refine ⟨_, rfl, ?_⟩
  show interp (wave.map (fun x => x * (1 + 0 / 300000))) (filt data (0 / vs)) wave = data
  simp only [zero_div, add_zero, mul_one, List.map_id']
  rw [hfilt, hinterp]

/-- Witness for C7 at a concrete spectrum with trivial external
primitives. -/
theorem losvd_resample_roundtrip_witness :
    ∃ b, applyGaussianLOSVD w7filt w7spec 0 0 = Except.ok b ∧
      (resampleSpec w7interp b w7spec.wave).data = w7spec.data :=
  losvd_resample_roundtrip w7filt w7interp w7spec 1 rfl one_ne_zero rfl rfl

/-! ### C5: convergence diagnostic -/

/-- C5 counterexample: under the default emcee backend, a completed run
with only 2 chains does not report a zero diagnostic — the formula value
is reported instead (here the squared diagnostic is `23/10`, so the
diagnostic itself is nonzero), refuting the claim that fewer than 3
chains yield a diagnostic of 0. -/
theorem convergenceDiagnostic_two_chains_counterexample :
    convergenceDiagnosticSq false 2 0 [[0, 1], [2, 5]] = 23 / 10 ∧
    convergenceDiagnosticSq false 2 0 [[0, 1], [2, 5]] ≠ 0 := by
  norm_num [convergenceDiagnosticSq, rhatSq, traceSamples, gelmanB, gelmanW,
    sampleVar, listMean]

/-- C5 amended: under the default emcee backend the (squared) diagnostic
always equals `1 - 1/n + B/(n*W)` with `n` the post-burn samples per
chain, `B` n times the variance of the per-chain means and `W` the mean
per-chain variance, whatever the number of chains; the zero fallback for
fewer than 3 walkers applies only when the pymc backend is selected. -/
theorem convergenceDiagnostic_amended (walkers : ℕ) (pymcGRSq : ℚ)
    (trace : List (List ℚ)) (hw : walkers < 3) :
    convergenceDiagnosticSq true walkers pymcGRSq trace = 0 ∧
    convergenceDiagnosticSq false walkers pymcGRSq trace =
      1 - 1 / traceSamples trace +
        gelmanB trace / (traceSamples trace * gelmanW trace) := by
  constructor
  · unfold convergenceDiagnosticSq
    rw [if_pos rfl, if_neg (by omega)]
  · unfold convergenceDiagnosticSq rhatSq
    rw [if_neg Bool.false_ne_true, div_div]

/-- Witness for C5 at a concrete two-chain trace. -/
theorem convergenceDiagnostic_amended_witness :
    convergenceDiagnosticSq true 2 7 [[0, 1], [2, 5]] = 0 ∧
    convergenceDiagnosticSq false 2 7 [[0, 1], [2, 5]] =
      1 - 1 / traceSamples [[0, 1], [2, 5]] +
        gelmanB [[0, 1], [2, 5]] /
          (traceSamples [[0, 1], [2, 5]] * gelmanW [[0, 1], [2, 5]]) :=
  convergenceDiagnostic_amended 2 7 [[0, 1], [2, 5]] (by decide)

/-! ### Structure lemmas for `fitSuperposition` -/

/-- Any successful run of the main fitting path mutates the spectrum
exactly by the `mask_fit` union, returns a chi-square consistent with the
returned best-fit spectrum, and returns coefficients drawn either from
the fixed `[1]` or from the solver. -/
theorem fitSuperpositionMain_ok (interp : List ℚ → List ℚ → List ℚ → List ℚ)
    (broaden : SSPlibrary → ℚ → ℚ → SSPlibrary)
    (solver : List (List ℚ) → List ℚ → List ℚ → List Bool → Bool → List ℚ)
    (s : Spectrum1D) (lib0 : SSPlibrary) (vel disp : Option ℚ)
    (maskFit : Option (List Bool)) (negative : Bool) (r : FitResult) (s1 : Spectrum1D)
    (h : fitSuperpositionMain interp broaden solver s lib0 vel disp maskFit negative
        = Except.ok (r, s1)) :
    s1 = applyMaskFit s maskFit ∧ chi2Consistent s r ∧
      ((∀ base d e mm, ∀ w ∈ solver base d e mm negative, 0 ≤ w) →
        ∀ w ∈ r.coeff, 0 ≤ w) := by
  unfold fitSuperpositionMain at h
  split at h
  · exact absurd h (by simp)
  next m hm =>
    split at h
    · exact absurd h (by simp)
    next hall =>
      simp only [Except.ok.injEq, Prod.mk.injEq] at h
      obtain ⟨hr, hs1⟩ := h
      subst hr
      subst hs1
      refine ⟨rfl, ⟨m, rfl, rfl⟩, ?_⟩
      intro hs w hw
      unfold mainLibFit at hw
      by_cases hb : (broadenedLib broaden lib0 vel disp).getBaseNumber = 1
      · rw [if_pos hb] at hw
        simp only [List.mem_singleton] at hw
        rw [hw]
        exact zero_le_one
      · rw [if_neg hb] at hw
        exact hs _ _ _ _ w hw

/-- When the mask left after the `mask_fit` union excludes every point,
the main fitting path raises exactly a ValueError. -/
theorem fitSuperpositionMain_allMasked (interp : List ℚ → List ℚ → List ℚ → List ℚ)
    (broaden : SSPlibrary → ℚ → ℚ → SSPlibrary)
    (solver : List (List ℚ) → List ℚ → List ℚ → List Bool → Bool → List ℚ)
    (s : Spectrum1D) (vel disp : Option ℚ)
    (maskFit : Option (List Bool)) (negative : Bool) (m : List Bool)
    (hm : (applyMaskFit s maskFit).mask = some m)
    (hall : m.all (fun b => b) = true) (lib0 : SSPlibrary) :
    fitSuperpositionMain interp broaden solver s lib0 vel disp maskFit negative
      = Except.error PyError.valueError := by
  unfold fitSuperpositionMain
  rw [hm]
  simp only [hall, if_true]

/-- Invariant of the auto-select loop of `fitSuperposition`: a successful
run returns a chi-square-consistent result with nonnegative (zero-or-one)
coefficients, and mutates the state exactly by the `mask_fit` union. -/
theorem fitSuperpositionAuto_ok (interp : List ℚ → List ℚ → List ℚ → List ℚ)
    (broaden : SSPlibrary → ℚ → ℚ → SSPlibrary)
    (solver : List (List ℚ) → List ℚ → List ℚ → List Bool → Bool → List ℚ)
    (lib : SSPlibrary) (vel disp : Option ℚ) (maskFit : Option (List Bool))
    (negative : Bool) (sOrig : Spectrum1D) (lst : List ℕ) :
    ∀ (best : Option FitResult) (sel : Option (List Bool)) (t : Spectrum1D)
      (r : FitResult) (s1 : Spectrum1D),
      t.data = sOrig.data → t.error = sOrig.error →
      (∀ b, best = some b → chi2Consistent sOrig b) →
      fitSuperpositionAuto interp broaden solver lib vel disp maskFit negative lst best sel t
        = Except.ok (r, s1) →
      chi2Consistent sOrig r ∧ (∀ w ∈ r.coeff, 0 ≤ w) ∧
        ((lst = [] ∧ s1 = t) ∨ s1 = applyMaskFit t maskFit) := by
  induction lst with
  | nil =>
    intro best sel t r s1 hd he hbest h
    rcases best with _ | b <;> rcases sel with _ | sl <;>
      simp only [fitSuperpositionAuto] at h
    · exact absurd h (by simp)
    · exact absurd h (by simp)
    · exact absurd h (by simp)
    · simp only [Except.ok.injEq, Prod.mk.injEq] at h
      obtain ⟨hr, hs1⟩ := h
      subst hr
      subst hs1
      refine ⟨hbest b rfl, ?_, Or.inl ⟨rfl, rfl⟩⟩
      intro w hw
      simp only [List.mem_map] at hw
      obtain ⟨x, -, rfl⟩ := hw
      cases x <;> norm_num
  | cons i rest ih =>
    intro best sel t r s1 hd he hbest h
    rcases hmain : fitSuperpositionMain interp broaden solver t
        (lib.subLibrary (selectOne lib.getBaseNumber i)) vel disp maskFit negative
      with e | ⟨r0, t1⟩
    · simp only [fitSuperpositionAuto, hmain] at h
      exact absurd h (by simp)
    · obtain ⟨ht1, hc0, -⟩ :=
        fitSuperpositionMain_ok interp broaden solver t
          (lib.subLibrary (selectOne lib.getBaseNumber i)) vel disp maskFit negative r0 t1 hmain
      have hd1 : t1.data = sOrig.data := by rw [ht1, applyMaskFit_data, hd]
      have he1 : t1.error = sOrig.error := by rw [ht1, applyMaskFit_error, he]
      have hc0s : chi2Consistent sOrig r0 := chi2Consistent_congr t sOrig r0 hd he hc0
      have hfinish : ∀ (best1 : Option FitResult) (sel1 : Option (List Bool)),
          (∀ b, best1 = some b → chi2Consistent sOrig b) →
          fitSuperpositionAuto interp broaden solver lib vel disp maskFit negative
            rest best1 sel1 t1 = Except.ok (r, s1) →
          chi2Consistent sOrig r ∧ (∀ w ∈ r.coeff, 0 ≤ w) ∧
            s1 = applyMaskFit t maskFit := by
        intro best1 sel1 hbest1 hrec
        obtain ⟨h1, h2, h3⟩ := ih best1 sel1 t1 r s1 hd1 he1 hbest1 hrec
        refine ⟨h1, h2, ?_⟩
        rcases h3 with ⟨-, rfl⟩ | rfl
        · exact ht1
        · rw [ht1, applyMaskFit_idem]
      rcases best with _ | b
      · simp only [fitSuperpositionAuto, hmain, if_true] at h
        obtain ⟨h1, h2, h3⟩ := hfinish (some r0) (some (selectOne lib.getBaseNumber i))
          (fun b hb => by cases hb; exact hc0s) h
        exact ⟨h1, h2, Or.inr h3⟩
      · simp only [fitSuperpositionAuto, hmain] at h
        split at h
        · obtain ⟨h1, h2, h3⟩ := hfinish (some r0) (some (selectOne lib.getBaseNumber i))
            (fun b hb => by cases hb; exact hc0s) h
          exact ⟨h1, h2, Or.inr h3⟩
        · obtain ⟨h1, h2, h3⟩ := hfinish (some b) sel hbest h
          exact ⟨h1, h2, Or.inr h3⟩

/-! ### C1: solver output invariants -/

/-- C1: every call to `fitSuperposition` with `negative = False` that
returns yields a weight vector with every entry nonnegative (given the
non-negative least-squares contract of the external solver under
`negative = False`), and the returned chi-square equals the chi-square
recomputed from the original data, the returned best-fit spectrum, the
error weights used by the fit (`1/sigma` per point, unit weights when the
error is unknown) and the mask carried by the best-fit spectrum. -/
theorem fitSuperposition_nonneg_chiSquare (interp : List ℚ → List ℚ → List ℚ → List ℚ)
    (broaden : SSPlibrary → ℚ → ℚ → SSPlibrary)
    (solver : List (List ℚ) → List ℚ → List ℚ → List Bool → Bool → List ℚ)
    (s : Spectrum1D) (lib : SSPlibrary) (nlib : Option ℤ) (vel disp : Option ℚ)
    (maskFit : Option (List Bool)) (r : FitResult) (s1 : Spectrum1D)
    (hsolver : ∀ base d e mm, ∀ w ∈ solver base d e mm false, 0 ≤ w)
    (h : fitSuperposition interp broaden solver s lib nlib vel disp maskFit false
        = Except.ok (r, s1)) :
    (∀ w ∈ r.coeff, 0 ≤ w) ∧
    ∃ m, r.bestfit.mask = some m ∧
      r.chi2 = chiSquare s.data r.bestfit.data (usedError s) m := by
  unfold fitSuperposition at h
  by_cases hn : nlib = some 0
  · rw [if_pos hn] at h
    obtain ⟨hc, hnn, -⟩ := fitSuperpositionAuto_ok interp broaden solver lib vel disp
      maskFit false s (List.range lib.getBaseNumber) none none s r s1 rfl rfl
      (fun b hb => nomatch hb) h
    exact ⟨hnn, hc⟩
  · rw [if_neg hn] at h
    obtain ⟨-, hc, hnn⟩ := fitSuperpositionMain_ok interp broaden solver s lib
      vel disp maskFit false r s1 h
    exact ⟨hnn hsolver, hc⟩

/-- Witness for C1 at a concrete spectrum and single-template library. -/
theorem fitSuperposition_nonneg_chiSquare_witness :
    (∀ w ∈ cResult.coeff, 0 ≤ w) ∧
    ∃ m, cResult.bestfit.mask = some m ∧
      cResult.chi2 = chiSquare cSpec.data cResult.bestfit.data (usedError cSpec) m :=
  fitSuperposition_nonneg_chiSquare cInterp cBroaden cSolver cSpec cLib
    none none none none cResult cSpec
    (fun _ _ _ _ _ hw => (List.mem_singleton.mp hw) ▸ zero_le_one) rfl

/-! ### C2: fully masked spectra raise a ValueError -/

/-- C2: whenever the mask left after the union with any supplied
`mask_fit` excludes every point, `fitSuperposition` fails with exactly a
ValueError (for the auto-select mode the library must be nonempty, else
Python would raise an IndexError on `bestresult[1]` before reaching a
fit). -/
theorem fitSuperposition_allMasked_valueError (interp : List ℚ → List ℚ → List ℚ → List ℚ)
    (broaden : SSPlibrary → ℚ → ℚ → SSPlibrary)
    (solver : List (List ℚ) → List ℚ → List ℚ → List Bool → Bool → List ℚ)
    (s : Spectrum1D) (lib : SSPlibrary) (nlib : Option ℤ) (vel disp : Option ℚ)
    (maskFit : Option (List Bool)) (negative : Bool) (m : List Bool)
    (hm : (applyMaskFit s maskFit).mask = some m)
    (hall : m.all (fun b => b) = true)
    (hB : nlib = some 0 → 1 ≤ lib.getBaseNumber) :
    fitSuperposition interp broaden solver s lib nlib vel disp maskFit negative
      = Except.error PyError.valueError := by
  unfold fitSuperposition
  by_cases hn : nlib = some 0
  · rw [if_pos hn]
    obtain ⟨k, hk⟩ : ∃ k, lib.getBaseNumber = k + 1 :=
      ⟨lib.getBaseNumber - 1, by have := hB hn; omega⟩
    rw [hk, List.range_succ_eq_map]
    simp only [fitSuperpositionAuto,
      fitSuperpositionMain_allMasked interp broaden solver s vel disp maskFit negative m hm hall]
  · rw [if_neg hn]
    exact fitSuperpositionMain_allMasked interp broaden solver s vel disp maskFit
      negative m hm hall lib

/-- Witness for C2 at a concrete fully masked spectrum. -/
theorem fitSuperposition_allMasked_valueError_witness :
    fitSuperposition cInterp cBroaden cSolver c2spec cLib none none none none false
      = Except.error PyError.valueError :=
  fitSuperposition_allMasked_valueError cInterp cBroaden cSolver c2spec cLib
    none none none none false [true, true] rfl rfl (fun hcon => nomatch hcon)

/-! ### C3: `fitSuperposition` is not pure — it mutates the mask -/

/-- C3 counterexample: a concrete call to `fitSuperposition` with a
supplied `mask_fit` returns successfully but leaves the spectrum with a
mask different from the one it had before the call, refuting the claim
that the spectrum's fields are unchanged for every argument
combination. -/
theorem fitSuperposition_mutates_mask_counterexample :
    fitSuperposition cInterp cBroaden cSolver cSpec cLib none none none
        (some [true, false]) false = Except.ok (c3result, c3after) ∧
    c3after.mask ≠ cSpec.mask :=
  ⟨rfl, by decide⟩

/-- C3 amended: `fitSuperposition` never touches the spectrum's
wavelength, data, error or normalization, and leaves the mask unchanged
when no `mask_fit` is supplied; but when `mask_fit` is supplied the
spectrum's mask is permanently overwritten with the union of the old mask
and `mask_fit`. -/
theorem fitSuperposition_frame_amended (interp : List ℚ → List ℚ → List ℚ → List ℚ)
    (broaden : SSPlibrary → ℚ → ℚ → SSPlibrary)
    (solver : List (List ℚ) → List ℚ → List ℚ → List Bool → Bool → List ℚ)
    (s : Spectrum1D) (lib : SSPlibrary) (nlib : Option ℤ) (vel disp : Option ℚ)
    (maskFit : Option (List Bool)) (negative : Bool) (r : FitResult) (s1 : Spectrum1D)
    (h : fitSuperposition interp broaden solver s lib nlib vel disp maskFit negative
        = Except.ok (r, s1)) :
    s1.wave = s.wave ∧ s1.data = s.data ∧ s1.error = s.error ∧
    s1.normalization = s.normalization ∧
    s1.mask = (applyMaskFit s maskFit).mask ∧
    (maskFit = none → s1.mask = s.mask) := by
  have hs1 : s1 = applyMaskFit s maskFit := by
    unfold fitSuperposition at h
    by_cases hn : nlib = some 0
    · rw [if_pos hn] at h
      cases hR : List.range lib.getBaseNumber with
      | nil =>
        rw [hR] at h
        simp only [fitSuperpositionAuto] at h
        exact absurd h (by simp)
      | cons hd tl =>
        rw [hR] at h
        obtain ⟨-, -, hdisj⟩ := fitSuperpositionAuto_ok interp broaden solver lib vel disp
          maskFit negative s (hd :: tl) none none s r s1 rfl rfl
          (fun b hb => nomatch hb) h
        rcases hdisj with ⟨hcon, -⟩ | hs
        · exact absurd hcon (by simp)
        · exact hs
    · rw [if_neg hn] at h
      exact (fitSuperpositionMain_ok interp broaden solver s lib vel disp maskFit
        negative r s1 h).1
  subst hs1
  refine ⟨applyMaskFit_wave s maskFit, applyMaskFit_data s maskFit,
    applyMaskFit_error s maskFit, applyMaskFit_normalization s maskFit, rfl, ?_⟩
  intro hmf
  subst hmf
  rw [applyMaskFit_none]

/-- Witness for the amended C3 at a concrete call without `mask_fit`. -/
theorem fitSuperposition_frame_amended_witness :
    cSpec.wave = cSpec.wave ∧ cSpec.data = cSpec.data ∧ cSpec.error = cSpec.error ∧
    cSpec.normalization = cSpec.normalization ∧
    cSpec.mask = (applyMaskFit cSpec none).mask ∧
    ((none : Option (List Bool)) = none → cSpec.mask = cSpec.mask) :=
  fitSuperposition_frame_amended cInterp cBroaden cSolver cSpec cLib
    none none none none false cResult cSpec rfl

/-! ### C6: single-template libraries skip the optimization -/

/-- The main fitting path at a single-template library, with no kinematic
shift: the coefficient is fixed to `[1]` and the result does not involve
the solver. -/
theorem fitSuperpositionMain_single (interp : List ℚ → List ℚ → List ℚ → List ℚ)
    (broaden : SSPlibrary → ℚ → ℚ → SSPlibrary)
    (solver : List (List ℚ) → List ℚ → List ℚ → List Bool → Bool → List ℚ)
    (s : Spectrum1D) (lib : SSPlibrary) (maskFit : Option (List Bool))
    (negative : Bool) (t : List ℚ) (m : List Bool)
    (ht : lib.base = [t]) (hm : (applyMaskFit s maskFit).mask = some m)
    (hnm : m.all (fun b => b) = false) :
    fitSuperpositionMain interp broaden solver s lib none none maskFit negative
      = Except.ok
        (⟨[1],
          { wave := s.wave
            data := evalComb [1] (resampleOrKeep interp lib s.wave).base
            error := none
            mask := some m
            normalization := (applyMaskFit s maskFit).normalization
            velSampling := none },
          chiSquare s.data (evalComb [1] (resampleOrKeep interp lib s.wave).base)
            (usedError s) m⟩,
         applyMaskFit s maskFit) := by
  have hB : (broadenedLib broaden lib none none).getBaseNumber = 1 := by
    simp [broadenedLib, SSPlibrary.getBaseNumber, ht]
  have hlf : mainLibFit interp broaden solver s lib none none m negative
      = ⟨(resampleOrKeep interp lib s.wave).base, [1]⟩ := by
    unfold mainLibFit
    rw [if_pos hB]
    rfl
  unfold fitSuperpositionMain
  rw [hm]
  simp only [hnm, Bool.false_eq_true, if_false, hlf]
  rfl

/-- C6: a call to `fitSuperposition` on a single-template library (with no
kinematic arguments and the default `nlib_guess`) returns the weight
vector exactly `[1]`; the best-fit spectrum is the (possibly resampled)
single template with weight one, and no least-squares optimization is run
— the outcome is the same for every solver. -/
theorem fitSuperposition_singleTemplate (interp : List ℚ → List ℚ → List ℚ → List ℚ)
    (broaden : SSPlibrary → ℚ → ℚ → SSPlibrary)
    (solver solver2 : List (List ℚ) → List ℚ → List ℚ → List Bool → Bool → List ℚ)
    (s : Spectrum1D) (lib : SSPlibrary) (maskFit : Option (List Bool))
    (negative : Bool) (t : List ℚ) (m : List Bool)
    (ht : lib.base = [t]) (hm : (applyMaskFit s maskFit).mask = some m)
    (hnm : m.all (fun b => b) = false) :
    ∃ r s1,
      fitSuperposition interp broaden solver s lib none none none maskFit negative
        = Except.ok (r, s1) ∧
      r.coeff = [1] ∧
      r.bestfit.data = (resampleOrKeep interp lib s.wave).base.headD [] ∧
      fitSuperposition interp broaden solver2 s lib none none none maskFit negative
        = fitSuperposition interp broaden solver s lib none none none maskFit negative := by
  have h1 := fitSuperpositionMain_single interp broaden solver s lib maskFit negative t m
    ht hm hnm
  have h2 := fitSuperpositionMain_single interp broaden solver2 s lib maskFit negative t m
    ht hm hnm
  have hfit : fitSuperposition interp broaden solver s lib none none none maskFit negative
      = fitSuperpositionMain interp broaden solver s lib none none maskFit negative := by
    unfold fitSuperposition
    rw [if_neg (by simp)]
  have hfit2 : fitSuperposition interp broaden solver2 s lib none none none maskFit negative
      = fitSuperpositionMain interp broaden solver2 s lib none none maskFit negative := by
    unfold fitSuperposition
    rw [if_neg (by simp)]
  obtain ⟨t1, ht1⟩ : ∃ t1, (resampleOrKeep interp lib s.wave).base = [t1] := by
    unfold resampleOrKeep
    split
    · exact ⟨interp lib.wave t s.wave, by simp [SSPlibrary.resampleBase, ht]⟩
    · exact ⟨t, ht⟩
  refine ⟨_, _, hfit.trans h1, rfl, ?_, by rw [hfit, hfit2, h1, h2]⟩
  dsimp only
  rw [ht1]
  simp [evalComb, vecScale_one]

/-- Witness for C6 at a concrete spectrum and single-template library. -/
theorem fitSuperposition_singleTemplate_witness :
    ∃ r s1,
      fitSuperposition cInterp cBroaden cSolver cSpec cLib none none none none false
        = Except.ok (r, s1) ∧
      r.coeff = [1] ∧
      r.bestfit.data = (resampleOrKeep cInterp cLib cSpec.wave).base.headD [] ∧
      fitSuperposition cInterp cBroaden cSolver2 cSpec cLib none none none none false
        = fitSuperposition cInterp cBroaden cSolver cSpec cLib none none none none false :=
  fitSuperposition_singleTemplate cInterp cBroaden cSolver cSolver2 cSpec cLib
    none false [1, 1] [false, false] rfl rfl rfl

/-! ### C4: the auto-select mode of `fit_Kin_Lib_simple` crashes -/

/-- C4: in auto-select mode (`nlib_guess = 0`) on a nonempty library,
whenever the first single-template sub-fit completes (returning the
11-tuple of the `sample_out = False` return statement, which ends in
`None, None`), the selection loop raises a TypeError: it compares
`result[-1]` — which is `None` — against `numpy.inf`, and Python 3
refuses to order `None` and a float.  The lowest-chi-square result is
never returned. -/
theorem fit_Kin_Lib_simple_auto_typeError (inner : SSPlibrary → Except PyError (List PyVal))
    (lib : SSPlibrary) (c : KinFitCore) (tv td : List ℚ)
    (hB : 1 ≤ lib.getBaseNumber)
    (hinner : inner (lib.subLibrary (selectOne lib.getBaseNumber 0))
      = Except.ok (kinFitReturn c false tv td)) :
    fit_Kin_Lib_simple_auto inner lib = Except.error PyError.typeError := by
  obtain ⟨k, hk⟩ : ∃ k, lib.getBaseNumber = k + 1 := ⟨lib.getBaseNumber - 1, by omega⟩
  have hlast : (kinFitReturn c false tv td).getLast? = some PyVal.noneVal := rfl
  unfold fit_Kin_Lib_simple_auto
  rw [hk, List.range_succ_eq_map]
  simp only [fit_Kin_Lib_simple_autoLoop, hinner, hlast]
  rfl

/-- Witness for C4 at a concrete one-template library with a trivially
completing inner fit. -/
theorem fit_Kin_Lib_simple_auto_typeError_witness :
    fit_Kin_Lib_simple_auto c4inner c4lib = Except.error PyError.typeError :=
  fit_Kin_Lib_simple_auto_typeError c4inner c4lib c4core [] [] (by decide) rfl

end PyParadise
